import Mathlib

/-!
Shallow embedding of the device-selection and swapchain-configuration core of
`src/VulkanRenderer/VulkanRenderer.cpp` / `VulkanRenderer.h`.

Machine integers (`uint32_t`, non-negative `int` scores, `size_t` sizes) are
modelled as `Nat`; every arithmetic operation the code performs on them is
addition or comparison, so no overflow-sensitive operation occurs on the
modelled paths.  Vulkan handles are opaque; they are modelled as `Nat` where a
value is needed.  Platform queries (`vkGetPhysicalDevice...`) are modelled as
fields of a `PhysicalDevice` record describing what the platform would report
for the fixed window surface held in `mSurface`.
-/

/-- Pixel width and height, modelling `VkExtent2D` (two `uint32_t` fields). -/
structure Extent2D where
  width : Nat
  height : Nat
deriving DecidableEq

/-- The fields of `VkSurfaceCapabilitiesKHR` the core reads. -/
structure SurfaceCapabilities where
  minImageCount : Nat
  maxImageCount : Nat
  currentExtent : Extent2D
  minImageExtent : Extent2D
  maxImageExtent : Extent2D
deriving DecidableEq

/-- Modelling `VkSurfaceFormatKHR`: a pixel-format code and a color-space code. -/
structure SurfaceFormat where
  format : Nat
  colorSpace : Nat
deriving DecidableEq, Inhabited

/-- The numeric value of `VK_FORMAT_B8G8R8A8_SRGB` in `vulkan_core.h`. -/
def VK_FORMAT_B8G8R8A8_SRGB : Nat := 50

/-- The numeric value of `VK_COLOR_SPACE_SRGB_NONLINEAR_KHR` in `vulkan_core.h`. -/
def VK_COLOR_SPACE_SRGB_NONLINEAR_KHR : Nat := 0

/-- Modelling `VkPresentModeKHR` (the modes the code mentions). -/
inductive PresentMode
  | immediate
  | mailbox
  | fifo
  | fifoRelaxed
deriving DecidableEq

/-- The numeric value of `VK_QUEUE_GRAPHICS_BIT` (`0x00000001`). -/
def VK_QUEUE_GRAPHICS_BIT : Nat := 1

/-- One entry of the `vkGetPhysicalDeviceQueueFamilyProperties` array, paired
with what `vkGetPhysicalDeviceSurfaceSupportKHR` would report for this family
index against the renderer's surface. -/
structure QueueFamily where
  queueFlags : Nat
  presentSupport : Bool
deriving DecidableEq

/-- Whether `queueFamily.queueFlags & VK_QUEUE_GRAPHICS_BIT` is non-zero
(the test at VulkanRenderer.cpp:671). -/
def QueueFamily.hasGraphicsBit (qf : QueueFamily) : Bool :=
  (qf.queueFlags &&& VK_QUEUE_GRAPHICS_BIT) != 0

/-- A physical device as the platform reports it to this program: the fields of
`VkPhysicalDeviceProperties` / `VkPhysicalDeviceFeatures` the code reads, the
queue-family array, the device-extension names, and what the three
surface-query entry points would return for the renderer's surface. -/
structure PhysicalDevice where
  isDiscreteGpu : Bool
  maxImageDimension2D : Nat
  geometryShader : Bool
  queueFamilies : List QueueFamily
  availableExtensions : List String
  surfaceCapabilities : SurfaceCapabilities
  surfaceFormats : List SurfaceFormat
  surfacePresentModes : List PresentMode
deriving DecidableEq

/-- The struct `QueueFamilyIndices` of VulkanRenderer.h:49. -/
structure QueueFamilyIndices where
  graphicsFamily : Option Nat
  presentFamily : Option Nat
deriving DecidableEq

/-- `QueueFamilyIndices::isComplete` (VulkanRenderer.h:54). -/
def QueueFamilyIndices.isComplete (i : QueueFamilyIndices) : Bool :=
  i.graphicsFamily.isSome && i.presentFamily.isSome

/-- The loop of `VulkanRenderer::findQueueFamilies` (VulkanRenderer.cpp:669-689).
The mutable locals are threaded explicitly: `idx` is `queueFamilyIndex`,
`presentSupport` is the `VkBool32` declared before the loop (so it is sticky
across iterations and is re-assigned only inside the graphics branch, exactly
as in the source), `indices` is the partial result.  The `isComplete` test is
the early `break`. -/
def findQueueFamiliesLoop :
    List QueueFamily → Nat → Bool → QueueFamilyIndices → QueueFamilyIndices
  | [], _, _, indices => indices
  | qf :: rest, idx, presentSupport, indices =>
    let afterGraphics :=
      if qf.hasGraphicsBit then
        ({ indices with graphicsFamily := some idx }, qf.presentSupport)
      else
        (indices, presentSupport)
    let indices2 :=
      if afterGraphics.2 then { afterGraphics.1 with presentFamily := some idx }
      else afterGraphics.1
    if indices2.isComplete then indices2
    else findQueueFamiliesLoop rest (idx + 1) afterGraphics.2 indices2

/-- `VulkanRenderer::findQueueFamilies` (VulkanRenderer.cpp:649-692). -/
def findQueueFamilies (d : PhysicalDevice) : QueueFamilyIndices :=
  findQueueFamiliesLoop d.queueFamilies 0 false { graphicsFamily := none, presentFamily := none }

/-- Index of the first list entry satisfying `p`, if any. -/
def firstIdxSat (p : QueueFamily → Bool) : List QueueFamily → Option Nat
  | [] => none
  | qf :: rest => if p qf then some 0 else (firstIdxSat p rest).map (· + 1)

/-- The queue-family scan as claim C3 states it: the first family whose flags
include the graphics bit becomes the graphics family, and presentation support
is queried for every family, the first supporting family becoming the present
family. -/
def specFindQueueFamilies (d : PhysicalDevice) : QueueFamilyIndices :=
  { graphicsFamily := firstIdxSat QueueFamily.hasGraphicsBit d.queueFamilies
    presentFamily := firstIdxSat (fun qf => qf.presentSupport) d.queueFamilies }

/-- Index of the last list entry satisfying `p`, if any. -/
def lastIdxSat (p : QueueFamily → Bool) : List QueueFamily → Option Nat
  | [] => none
  | qf :: rest =>
    match lastIdxSat p rest with
    | some j => some (j + 1)
    | none => if p qf then some 0 else none

/-- What the scan at VulkanRenderer.cpp:669-689 actually computes: if some
family has both the graphics bit and presentation support, the first such
family index is returned for both slots (the loop breaks there); otherwise the
present family stays empty and the graphics slot holds the last family with
the graphics bit, because each graphics-capable family overwrites it. -/
def findQueueFamiliesModel (d : PhysicalDevice) : QueueFamilyIndices :=
  match firstIdxSat (fun qf => qf.hasGraphicsBit && qf.presentSupport) d.queueFamilies with
  | some j => { graphicsFamily := some j, presentFamily := some j }
  | none => { graphicsFamily := lastIdxSat QueueFamily.hasGraphicsBit d.queueFamilies
              presentFamily := none }

/-- The required-extension list `deviceExtensions` of VulkanRenderer.h:38
(`VK_KHR_SWAPCHAIN_EXTENSION_NAME`). -/
def deviceExtensions : List String := ["VK_KHR_swapchain"]

/-- `VulkanRenderer::checkDeviceExtensionSupport` (VulkanRenderer.cpp:416-437):
erase every available extension name from the required set and succeed when the
set is empty, i.e. every required extension is among the available ones. -/
def checkDeviceExtensionSupport (d : PhysicalDevice) : Bool :=
  deviceExtensions.all (fun ext => d.availableExtensions.contains ext)

/-- The struct `SwapChainSupportDetails` of VulkanRenderer.h:63. -/
structure SwapChainSupportDetails where
  capabilities : SurfaceCapabilities
  formats : List SurfaceFormat
  presentModes : List PresentMode
deriving DecidableEq

/-- `VulkanRenderer::getSwapChainSupport` (VulkanRenderer.cpp:552-571).  The
source queries the surface capabilities, then queries the format count and
fills `details.formats` only when the count is non-zero (otherwise the vector
keeps its default empty value).  No statement in the function body queries the
surface present modes, so `details.presentModes` always keeps its default
empty value. -/
def getSwapChainSupport (d : PhysicalDevice) : SwapChainSupportDetails :=
  { capabilities := d.surfaceCapabilities
    formats := if d.surfaceFormats.length != 0 then d.surfaceFormats else []
    presentModes := [] }

/-- Modelled from the spec: the SwapchainCapabilityProbe contract of spec
section 4.2, which says the probe returns a `SwapchainSupportDetails`
"populated with capabilities, formats, and present modes queried from the
platform".  Used only to exhibit how the source's `getSwapChainSupport`
diverges from that contract. -/
def getSwapChainSupportSpec (d : PhysicalDevice) : SwapChainSupportDetails :=
  { capabilities := d.surfaceCapabilities
    formats := d.surfaceFormats
    presentModes := d.surfacePresentModes }

/-- `VulkanRenderer::getDeviceSuitablility` (VulkanRenderer.cpp:363-409), name
kept with the source's spelling.  The C `int` score only ever receives
non-negative contributions, so it is modelled as `Nat`. -/
def getDeviceSuitablility (d : PhysicalDevice) : Nat :=
  let s := if d.isDiscreteGpu then 1000 else 0
  let s := s + d.maxImageDimension2D
  if !d.geometryShader then 0
  else
    let indices := findQueueFamilies d
    if !indices.isComplete || !checkDeviceExtensionSupport d then 0
    else
      let swapChainSupport := getSwapChainSupport d
      if swapChainSupport.formats.isEmpty && swapChainSupport.presentModes.isEmpty then 0
      else s + swapChainSupport.formats.length + swapChainSupport.presentModes.length

/-- The two `std::runtime_error` throws of `pickPhysicalDevice`: no device
enumerated (cpp:261) and no device with positive suitability (cpp:285).  The
spec's `NoSuitableDeviceError` covers both ("zero devices enumerated, or all
candidates scored at most 0", spec section 7). -/
inductive PickError
  | noVulkanGpus
  | noSuitableGpu
deriving DecidableEq

/-- Model of the `std::multimap<int, VkPhysicalDevice>::rbegin()` read at
VulkanRenderer.cpp:279-281.  Pairs are inserted in enumeration order; since
C++11 `multimap::insert` places an element with an equivalent key at the upper
bound of the range of equal keys, so `rbegin()` is the entry with the maximal
key and, among equal maximal keys, the one inserted last.  This fold keeps the
current candidate unless a strictly greater key appears earlier in the list,
which yields exactly that element. -/
def multimapRBegin {α : Type} : List (Nat × α) → Option (Nat × α)
  | [] => none
  | p :: rest =>
    match multimapRBegin rest with
    | none => some p
    | some q => if q.1 < p.1 then some p else some q

/-- `VulkanRenderer::pickPhysicalDevice` (VulkanRenderer.cpp:250-289): throw if
fewer than one device is enumerated; rate every device with
`getDeviceSuitablility` and insert into the multimap in enumeration order;
take `rbegin()`; accept when its score is strictly positive, else throw. -/
def pickPhysicalDevice (devices : List PhysicalDevice) : Except PickError PhysicalDevice :=
  if devices.length < 1 then Except.error PickError.noVulkanGpus
  else
    match multimapRBegin (devices.map (fun d => (getDeviceSuitablility d, d))) with
    | none => Except.error PickError.noVulkanGpus
    | some best =>
      if 0 < best.1 then Except.ok best.2 else Except.error PickError.noSuitableGpu

/-- The selection rule as claim C1 states it: the device with the strictly
highest score, ties broken by enumeration order with the first-enumerated
device winning — i.e. the first device whose score is maximal over the list. -/
def specPickFirstHighest (devices : List PhysicalDevice) : Option PhysicalDevice :=
  devices.find? (fun d =>
    devices.all (fun e => getDeviceSuitablility e ≤ getDeviceSuitablility d))

/-- Whether a surface format is the preferred one of
`chooseSwapSurfaceFormat` (VulkanRenderer.cpp:582-583): exact equality with
`VK_FORMAT_B8G8R8A8_SRGB` and `VK_COLOR_SPACE_SRGB_NONLINEAR_KHR`. -/
def isPreferredSurfaceFormat (f : SurfaceFormat) : Bool :=
  f.format == VK_FORMAT_B8G8R8A8_SRGB && f.colorSpace == VK_COLOR_SPACE_SRGB_NONLINEAR_KHR

/-- The scan loop of `chooseSwapSurfaceFormat` (VulkanRenderer.cpp:580-587). -/
def chooseSwapSurfaceFormatLoop : List SurfaceFormat → Option SurfaceFormat
  | [] => none
  | f :: rest => if isPreferredSurfaceFormat f then some f else chooseSwapSurfaceFormatLoop rest

/-- `VulkanRenderer::chooseSwapSurfaceFormat` (VulkanRenderer.cpp:578-591): the
first exactly-matching candidate, else `availableFormats[0]`.  The fallback
subscript on an empty vector is out of bounds in the source; it is modelled as
`head?`, so the function returns `none` exactly on the empty list. -/
def chooseSwapSurfaceFormat (availableFormats : List SurfaceFormat) : Option SurfaceFormat :=
  match chooseSwapSurfaceFormatLoop availableFormats with
  | some f => some f
  | none => availableFormats.head?

/-- `VulkanRenderer::chooseSwapPresentMode` (VulkanRenderer.cpp:598-608): the
first `VK_PRESENT_MODE_MAILBOX_KHR` candidate, else `VK_PRESENT_MODE_FIFO_KHR`. -/
def chooseSwapPresentMode : List PresentMode → PresentMode
  | [] => PresentMode.fifo
  | m :: rest => if m = PresentMode.mailbox then m else chooseSwapPresentMode rest

/-- The value of `std::numeric_limits<uint32_t>::max()`. -/
def UINT32_MAX : Nat := 4294967295

/-- `std::clamp(v, lo, hi)`: `lo` if `v < lo`, else `hi` if `hi < v`, else `v`. -/
def stdClamp (v lo hi : Nat) : Nat :=
  if v < lo then lo else if hi < v then hi else v

/-- The window framebuffer size reported by `glfwGetFramebufferSize`
(non-negative in practice, modelled as `Nat` after the `uint32_t` casts at
VulkanRenderer.cpp:626-629). -/
structure FramebufferSize where
  width : Nat
  height : Nat
deriving DecidableEq

/-- `VulkanRenderer::chooseSwapExtent` (VulkanRenderer.cpp:615-642): when
`capabilities.currentExtent.width` differs from the max-uint32 sentinel,
return `currentExtent` verbatim; otherwise clamp the queried framebuffer size
componentwise into the min/max image extents.  The window query is passed in
explicitly. -/
def chooseSwapExtent (fb : FramebufferSize) (capabilities : SurfaceCapabilities) : Extent2D :=
  if capabilities.currentExtent.width ≠ UINT32_MAX then
    capabilities.currentExtent
  else
    { width := stdClamp fb.width capabilities.minImageExtent.width
        capabilities.maxImageExtent.width
      height := stdClamp fb.height capabilities.minImageExtent.height
        capabilities.maxImageExtent.height }

/-- The requested swapchain image count computed at VulkanRenderer.cpp:458-465
inside `createSwapChain`: `minImageCount + 1`, replaced by `maxImageCount`
when `maxImageCount > 0` and the sum exceeds it. -/
def swapChainRequestedImageCount (capabilities : SurfaceCapabilities) : Nat :=
  let imageCount := capabilities.minImageCount + 1
  if capabilities.maxImageCount > 0 && imageCount > capabilities.maxImageCount then
    capabilities.maxImageCount
  else
    imageCount

/-- The constant `enabledValidationLayers` of VulkanRenderer.h:42. -/
def enabledValidationLayers : Bool := true

/-- One observable create/destroy step of the renderer, used to state ordering
properties of `cleanup` and of swapchain recreation as traces. -/
inductive RenderEvent
  | destroySemaphore
  | destroyFence
  | destroyCommandPool
  | destroyFramebuffer (i : Nat)
  | destroyPipeline
  | destroyPipelineLayout
  | destroyRenderPass
  | destroyImageView (i : Nat)
  | destroySwapchain
  | destroyDevice
  | destroyWindow
  | destroyDebugMessenger
  | destroySurface
  | destroyInstance
  | glfwTerminateStep
  | deviceWaitIdle
  | createSwapChainStep (extent : Extent2D)
  | createImageViewsStep
  | createFramebuffersStep
deriving DecidableEq

/-- The destruction trace of `VulkanRenderer::cleanup` (VulkanRenderer.cpp:34-76)
for a renderer holding `nFramebuffers` framebuffers and `nImageViews` image
views, one event per destroy call in source order; the two destroy loops emit
one indexed event per element in vector order. -/
def cleanupTrace (nFramebuffers nImageViews : Nat) : List RenderEvent :=
  [RenderEvent.destroySemaphore, RenderEvent.destroySemaphore,
   RenderEvent.destroyFence, RenderEvent.destroyCommandPool]
  ++ (List.range nFramebuffers).map RenderEvent.destroyFramebuffer
  ++ [RenderEvent.destroyPipeline, RenderEvent.destroyPipelineLayout,
      RenderEvent.destroyRenderPass]
  ++ (List.range nImageViews).map RenderEvent.destroyImageView
  ++ [RenderEvent.destroySwapchain, RenderEvent.destroyDevice,
      RenderEvent.destroyWindow]
  ++ (if enabledValidationLayers then [RenderEvent.destroyDebugMessenger] else [])
  ++ [RenderEvent.destroySurface, RenderEvent.destroyInstance,
      RenderEvent.glfwTerminateStep]

/-- Modelled from the spec: `recreateSwapChain` is declared at
VulkanRenderer.h:141 but no definition for it exists in the sources, so its
trace follows the spec's Invalidated-to-Live transition (spec section 4.5):
wait for the device to go idle, destroy framebuffers, image views and the
swapchain in that exact reverse order, then repeat the construction steps
against the current surface extent. -/
def recreateSwapChainTrace (nFramebuffers nImageViews : Nat)
    (currentExtent : Extent2D) : List RenderEvent :=
  [RenderEvent.deviceWaitIdle]
  ++ (List.range nFramebuffers).map RenderEvent.destroyFramebuffer
  ++ (List.range nImageViews).map RenderEvent.destroyImageView
  ++ [RenderEvent.destroySwapchain]
  ++ [RenderEvent.createSwapChainStep currentExtent,
      RenderEvent.createImageViewsStep, RenderEvent.createFramebuffersStep]

/-- Whether an event destroys one of the swapchain's dependent resources or the
swapchain itself. -/
def isSwapchainDependentDestroy : RenderEvent → Bool
  | RenderEvent.destroyFramebuffer _ => true
  | RenderEvent.destroyImageView _ => true
  | RenderEvent.destroySwapchain => true
  | _ => false

/-- Whether an event is one of the swapchain construction steps. -/
def isSwapchainConstructionStep : RenderEvent → Bool
  | RenderEvent.createSwapChainStep _ => true
  | RenderEvent.createImageViewsStep => true
  | RenderEvent.createFramebuffersStep => true
  | _ => false

/-- The three member vectors of `VulkanRenderer` that claim C9's length
invariant is about (VulkanRenderer.h:208-210); handles are modelled as `Nat`. -/
structure RendererState where
  swapChainImages : List Nat
  swapChainImageViews : List Nat
  swapChainFramebuffers : List Nat
deriving DecidableEq

/-- The invariant of claim C9. -/
def swapchainLengthInvariant (s : RendererState) : Prop :=
  s.swapChainImageViews.length = s.swapChainImages.length ∧
  s.swapChainFramebuffers.length = s.swapChainImages.length

/-- The operations `init` (VulkanRenderer.cpp:13-29) runs from `createSwapChain`
on, plus the per-frame `drawFrame`.  `createSwapChain` carries the image
handles the platform returns at cpp:507-509. -/
inductive RenderOp
  | createSwapChain (platformImages : List Nat)
  | createImageViews
  | createRenderPass
  | createGraphicsPipeline
  | createFramebuffers
  | createCommandPool
  | createCommandBuffer
  | createSyncObjects
  | drawFrame
deriving DecidableEq

/-- Effect of each operation on the three vectors.  `createSwapChain` stores
the platform-returned image handles (cpp:508); `createImageViews` resizes the
view vector to the image count and fills one view per image (cpp:518-544),
with the platform's view creation modelled by `mkView`; `createFramebuffers`
resizes the framebuffer vector to the view count and fills one framebuffer per
view (cpp:946-968), with creation modelled by `mkFramebuffer`.  No other
operation in the source touches these vectors. -/
def renderStep (mkView mkFramebuffer : Nat → Nat) (s : RendererState) :
    RenderOp → RendererState
  | RenderOp.createSwapChain platformImages => { s with swapChainImages := platformImages }
  | RenderOp.createImageViews =>
      { s with swapChainImageViews := s.swapChainImages.map mkView }
  | RenderOp.createFramebuffers =>
      { s with swapChainFramebuffers := s.swapChainImageViews.map mkFramebuffer }
  | _ => s

/-- Run a sequence of operations. -/
def runRenderOps (mkView mkFramebuffer : Nat → Nat) (s : RendererState)
    (ops : List RenderOp) : RendererState :=
  ops.foldl (renderStep mkView mkFramebuffer) s

/-- The `init` sequence from `createSwapChain` through `createFramebuffers`
(VulkanRenderer.cpp:21-25). -/
def swapchainConstructionSeq (platformImages : List Nat) : List RenderOp :=
  [RenderOp.createSwapChain platformImages, RenderOp.createImageViews,
   RenderOp.createRenderPass, RenderOp.createGraphicsPipeline,
   RenderOp.createFramebuffers]

/-- The operations the source can run after `createFramebuffers` while the
framebuffers exist: the tail of `init` (cpp:26-28) and the frame loop's
`drawFrame` (cpp:78-89). -/
def runsAfterFramebuffers : RenderOp → Bool
  | RenderOp.createCommandPool => true
  | RenderOp.createCommandBuffer => true
  | RenderOp.createSyncObjects => true
  | RenderOp.drawFrame => true
  | _ => false

/-- Capabilities record used by concrete instances below. -/
def demoCapabilities : SurfaceCapabilities :=
  { minImageCount := 2, maxImageCount := 8
    currentExtent := { width := 800, height := 600 }
    minImageExtent := { width := 1, height := 1 }
    maxImageExtent := { width := 4096, height := 4096 } }

/-- The preferred surface format of `chooseSwapSurfaceFormat`. -/
def srgbSurfaceFormat : SurfaceFormat :=
  { format := VK_FORMAT_B8G8R8A8_SRGB, colorSpace := VK_COLOR_SPACE_SRGB_NONLINEAR_KHR }

/-- A device meeting every hard requirement of `getDeviceSuitablility`. -/
def tieDeviceA : PhysicalDevice :=
  { isDiscreteGpu := false, maxImageDimension2D := 100, geometryShader := true
    queueFamilies := [{ queueFlags := 1, presentSupport := true }]
    availableExtensions := ["VK_KHR_swapchain"]
    surfaceCapabilities := demoCapabilities
    surfaceFormats := [srgbSurfaceFormat]
    surfacePresentModes := [PresentMode.fifo] }

/-- A second device with the same suitability score as `tieDeviceA` but
distinguishable from it (different reported `maxImageCount`). -/
def tieDeviceB : PhysicalDevice :=
  { tieDeviceA with surfaceCapabilities := { demoCapabilities with maxImageCount := 3 } }

/-- A device whose queue families expose the order-sensitivity of
`findQueueFamilies`: family 0 has the graphics bit without presentation
support, family 1 has both. -/
def c3Device : PhysicalDevice :=
  { tieDeviceA with
      queueFamilies := [{ queueFlags := 1, presentSupport := false },
                        { queueFlags := 1, presentSupport := true }] }

/-- A device whose platform reports a non-empty present-mode list, used to
exhibit that `getSwapChainSupport` never populates `presentModes`. -/
def c2Device : PhysicalDevice := tieDeviceA

/-- A device meeting claim C4's hard requirements through its present-mode
list alone: complete queue families, the required extension, the
geometry-shader feature, empty surface formats but a non-empty present-mode
list. -/
def c4Device : PhysicalDevice :=
  { tieDeviceA with surfaceFormats := [] }

/-- Surface capabilities reporting the max-uint32 "client decides" sentinel
extent, with image-extent bounds (1,1) to (4096,4096). -/
def sentinelCapabilities : SurfaceCapabilities :=
  { minImageCount := 2, maxImageCount := 0
    currentExtent := { width := UINT32_MAX, height := UINT32_MAX }
    minImageExtent := { width := 1, height := 1 }
    maxImageExtent := { width := 4096, height := 4096 } }

/-- Capabilities with `minImageCount = 2` and `maxImageCount = 2`. -/
def cappedCapabilities : SurfaceCapabilities :=
  { sentinelCapabilities with maxImageCount := 2 }


theorem findQueueFamiliesLoop_model (fams : List QueueFamily) (idx : Nat) (g : Option Nat) :
    findQueueFamiliesLoop fams idx false { graphicsFamily := g, presentFamily := none } =
      (match firstIdxSat (fun qf => qf.hasGraphicsBit && qf.presentSupport) fams with
      | some j => { graphicsFamily := some (idx + j), presentFamily := some (idx + j) }
      | none =>
        { graphicsFamily :=
            match lastIdxSat QueueFamily.hasGraphicsBit fams with
            | some j => some (idx + j)
            | none => g
          presentFamily := none }) := by
  induction fams generalizing idx g with
  | nil => simp [findQueueFamiliesLoop, firstIdxSat, lastIdxSat]
  | cons qf rest ih =>
    by_cases hg : qf.hasGraphicsBit
    · by_cases hp : qf.presentSupport
      · simp [findQueueFamiliesLoop, hg, hp, QueueFamilyIndices.isComplete, firstIdxSat]
      · have hstep : findQueueFamiliesLoop (qf :: rest) idx false
            { graphicsFamily := g, presentFamily := none } =
            findQueueFamiliesLoop rest (idx + 1) false
              { graphicsFamily := some idx, presentFamily := none } := by
          simp [findQueueFamiliesLoop, hg, hp, QueueFamilyIndices.isComplete]
        rw [hstep, ih]
        cases hfi : firstIdxSat (fun qf => qf.hasGraphicsBit && qf.presentSupport) rest with
        | some j =>
          simp [firstIdxSat, hg, hp, hfi]
          try omega
        | none =>
          cases hla : lastIdxSat QueueFamily.hasGraphicsBit rest with
          | some j =>
            simp [firstIdxSat, lastIdxSat, hg, hp, hfi, hla]
            try omega
          | none =>
            simp [firstIdxSat, lastIdxSat, hg, hp, hfi, hla]
    · have hstep : findQueueFamiliesLoop (qf :: rest) idx false
          { graphicsFamily := g, presentFamily := none } =
          findQueueFamiliesLoop rest (idx + 1) false
            { graphicsFamily := g, presentFamily := none } := by
        simp [findQueueFamiliesLoop, hg, QueueFamilyIndices.isComplete]
      rw [hstep, ih]
      cases hfi : firstIdxSat (fun qf => qf.hasGraphicsBit && qf.presentSupport) rest with
      | some j =>
        simp [firstIdxSat, hg, hfi]
        try omega
      | none =>
        cases hla : lastIdxSat QueueFamily.hasGraphicsBit rest with
        | some j =>
          simp [firstIdxSat, lastIdxSat, hg, hfi, hla]
          try omega
        | none =>
          simp [firstIdxSat, lastIdxSat, hg, hfi, hla]

/-- C3 counterexample: on a device whose family 0 has the graphics bit without
presentation support and whose family 1 has both, the source's scan yields
graphics family 1 (not the first graphics-capable family 0 the claim names),
so the claim's description of the scan fails on this input. -/
theorem findQueueFamilies_ne_spec_on_c3Device :
    findQueueFamilies c3Device = { graphicsFamily := some 1, presentFamily := some 1 } ∧
    specFindQueueFamilies c3Device = { graphicsFamily := some 0, presentFamily := some 1 } ∧
    findQueueFamilies c3Device ≠ specFindQueueFamilies c3Device := by decide

/-- C3 (amended): the scan iterates the queue-family list in index order and
queries presentation support only for families whose flags include the
graphics bit; if some graphics-capable family supports presentation, the first
such family index is recorded as both graphics and present family and the scan
stops there; otherwise the present family is left unset and the graphics
family records the last graphics-capable family, each one overwriting the
previous. -/
theorem findQueueFamilies_eq_model (d : PhysicalDevice) :
    findQueueFamilies d = findQueueFamiliesModel d := by
  unfold findQueueFamilies findQueueFamiliesModel
  rw [findQueueFamiliesLoop_model]
  cases firstIdxSat (fun qf => qf.hasGraphicsBit && qf.presentSupport) d.queueFamilies with
  | some j => simp
  | none =>
    cases lastIdxSat QueueFamily.hasGraphicsBit d.queueFamilies with
    | some j => simp
    | none => simp

theorem multimapRBegin_eq_none {α : Type} (l : List (Nat × α))
    (h : multimapRBegin l = none) : l = [] := by
  cases l with
  | nil => rfl
  | cons p rest =>
    rw [multimapRBegin] at h
    cases hr : multimapRBegin rest with
    | none => rw [hr] at h; simp at h
    | some q => rw [hr] at h; by_cases hc : q.1 < p.1 <;> simp [hc] at h

theorem multimapRBegin_spec {α : Type} (l : List (Nat × α)) (p : Nat × α)
    (h : multimapRBegin l = some p) :
    ∃ i : Nat, ∃ hi : i < l.length, l[i] = p ∧
      (∀ j, ∀ hj : j < l.length, (l[j]).1 ≤ p.1) ∧
      (∀ j, ∀ hj : j < l.length, i < j → (l[j]).1 < p.1) := by
  induction l generalizing p with
  | nil => simp [multimapRBegin] at h
  | cons a rest ih =>
    rw [multimapRBegin] at h
    cases hr : multimapRBegin rest with
    | none =>
      have hrest : rest = [] := multimapRBegin_eq_none rest hr
      subst hrest
      rw [hr] at h
      simp at h
      subst h
      refine ⟨0, by simp, rfl, ?_, ?_⟩
      · intro j hj
        have : j = 0 := by simpa using Nat.lt_one_iff.mp (by simpa using hj)
        subst this
        simp
      · intro j hj hlt
        simp at hj
        omega
    | some q =>
      rw [hr] at h
      obtain ⟨iq, hiq, hq_get, hq_max, hq_later⟩ := ih q hr
      by_cases hc : q.1 < a.1
      · simp [hc] at h
        subst h
        refine ⟨0, by simp, by simp, ?_, ?_⟩
        · intro j hj
          cases j with
          | zero => simp
          | succ j' =>
            have hj' : j' < rest.length := by simpa using hj
            have : ((a :: rest)[j' + 1]).1 = (rest[j']).1 := by simp
            rw [this]
            exact Nat.le_of_lt (Nat.lt_of_le_of_lt (hq_max j' hj') hc)
        · intro j hj hlt
          cases j with
          | zero => omega
          | succ j' =>
            have hj' : j' < rest.length := by simpa using hj
            have : ((a :: rest)[j' + 1]).1 = (rest[j']).1 := by simp
            rw [this]
            exact Nat.lt_of_le_of_lt (hq_max j' hj') hc
      · simp [hc] at h
        subst h
        refine ⟨iq + 1, by simpa using Nat.succ_lt_succ hiq, by simpa using hq_get, ?_, ?_⟩
        · intro j hj
          cases j with
          | zero => simpa using Nat.le_of_not_lt hc
          | succ j' =>
            have hj' : j' < rest.length := by simpa using hj
            simpa using hq_max j' hj'
        · intro j hj hlt
          cases j with
          | zero => omega
          | succ j' =>
            have hj' : j' < rest.length := by simpa using hj
            simpa using hq_later j' hj' (by omega)

/-- C1 counterexample: two distinguishable devices share the highest (positive)
suitability score; the claim's rule (first-enumerated wins the tie, formalised
by `specPickFirstHighest`) selects the first device, but `pickPhysicalDevice`
returns the second, because `std::multimap` places equal keys at the upper
bound and `rbegin()` therefore sees the last-enumerated one. -/
theorem pickPhysicalDevice_tie_counterexample :
    getDeviceSuitablility tieDeviceA = getDeviceSuitablility tieDeviceB ∧
    0 < getDeviceSuitablility tieDeviceA ∧
    tieDeviceA ≠ tieDeviceB ∧
    specPickFirstHighest [tieDeviceA, tieDeviceB] = some tieDeviceA ∧
    pickPhysicalDevice [tieDeviceA, tieDeviceB] = Except.ok tieDeviceB := by
  refine ⟨by decide, by decide, by decide, by decide, by rfl⟩

/-- C1 (amended): whenever `pickPhysicalDevice` returns a device, that device
occurs in the enumerated list, its suitability score is maximal over the list,
and every device enumerated after it scores strictly lower — i.e. the device
with the strictly highest score is selected and ties are broken by enumeration
order with the last-enumerated device winning. -/
theorem pickPhysicalDevice_picks_last_highest (devices : List PhysicalDevice)
    (d : PhysicalDevice) (h : pickPhysicalDevice devices = Except.ok d) :
    ∃ i : Nat, ∃ hi : i < devices.length, devices[i] = d ∧
      (∀ j, ∀ hj : j < devices.length,
        getDeviceSuitablility devices[j] ≤ getDeviceSuitablility d) ∧
      (∀ j, ∀ hj : j < devices.length, i < j →
        getDeviceSuitablility devices[j] < getDeviceSuitablility d) := by
  unfold pickPhysicalDevice at h
  by_cases hlen : devices.length < 1
  · rw [if_pos hlen] at h
    exact absurd h (by simp)
  · rw [if_neg hlen] at h
    cases hm : multimapRBegin (devices.map fun dev => (getDeviceSuitablility dev, dev)) with
    | none =>
      rw [hm] at h
      exact absurd h (by simp)
    | some best =>
      rw [hm] at h
      have h2 : (if 0 < best.1 then Except.ok best.2
          else Except.error PickError.noSuitableGpu) = Except.ok d := h
      by_cases hpos : 0 < best.1
      · rw [if_pos hpos] at h2
        have hbd : best.2 = d := by simpa using h2
        obtain ⟨i, hi, hget, hmax, hlater⟩ := multimapRBegin_spec _ best hm
        have hi2 : i < devices.length := by simpa using hi
        have hpair : (getDeviceSuitablility devices[i], devices[i]) = best := by
          rw [← hget, List.getElem_map]
        have hd : devices[i] = d := by rw [← hbd, ← hpair]
        have hs : best.1 = getDeviceSuitablility d := by rw [← hpair]; simp [hd]
        refine ⟨i, hi2, hd, ?_, ?_⟩
        · intro j hj
          have hj2 : j < (devices.map fun dev => (getDeviceSuitablility dev, dev)).length := by
            simpa using hj
          have hle := hmax j hj2
          rw [List.getElem_map] at hle
          simpa [hs] using hle
        · intro j hj hij
          have hj2 : j < (devices.map fun dev => (getDeviceSuitablility dev, dev)).length := by
            simpa using hj
          have hlt := hlater j hj2 hij
          rw [List.getElem_map] at hlt
          simpa [hs] using hlt
      · rw [if_neg hpos] at h2
        exact absurd h2 (by simp)

/-- Witness for the amended C1 theorem at the concrete one-device list. -/
theorem pickPhysicalDevice_picks_last_highest_witness :
    ∃ i : Nat, ∃ hi : i < [tieDeviceA].length, [tieDeviceA][i] = tieDeviceA ∧
      (∀ j, ∀ hj : j < [tieDeviceA].length,
        getDeviceSuitablility [tieDeviceA][j] ≤ getDeviceSuitablility tieDeviceA) ∧
      (∀ j, ∀ hj : j < [tieDeviceA].length, i < j →
        getDeviceSuitablility [tieDeviceA][j] < getDeviceSuitablility tieDeviceA) :=
  pickPhysicalDevice_picks_last_highest [tieDeviceA] tieDeviceA (by rfl)

/-- C2: `getSwapChainSupport` does not populate the present-mode field.  On a
device whose platform reports a non-empty present-mode list, the returned
record has an empty `presentModes`, diverging from the probe contract
(`getSwapChainSupportSpec`, modelled from spec section 4.2) that all three
fields are populated from platform queries. -/
theorem getSwapChainSupport_presentModes_not_populated :
    c2Device.surfacePresentModes = [PresentMode.fifo] ∧
    (getSwapChainSupport c2Device).presentModes = [] ∧
    getSwapChainSupport c2Device ≠ getSwapChainSupportSpec c2Device := by decide

/-- C4: a device list whose single device satisfies every hard requirement the
claim names — complete queue-family indices, the required swapchain extension,
the geometry-shader feature, and a non-empty formats-or-present-modes pair of
platform lists (here through the present modes alone) — yet
`pickPhysicalDevice` raises the no-suitable-device error, because the missing
present-mode query makes the suitability check see two empty lists. -/
theorem pickPhysicalDevice_rejects_present_mode_only_device :
    (findQueueFamilies c4Device).isComplete = true ∧
    checkDeviceExtensionSupport c4Device = true ∧
    c4Device.geometryShader = true ∧
    c4Device.surfaceFormats = [] ∧
    c4Device.surfacePresentModes ≠ [] ∧
    pickPhysicalDevice [c4Device] = Except.error PickError.noSuitableGpu := by
  refine ⟨by decide, by decide, by decide, by decide, by decide, by rfl⟩

theorem filter_map_of_all {α β : Type} (p : β → Bool) (f : α → β)
    (hp : ∀ a, p (f a) = true) (l : List α) :
    (l.map f).filter p = l.map f := by
  induction l with
  | nil => rfl
  | cons a rest ih => simp [List.filter, hp, ih]

/-- C5: within `cleanup`, the subsequence of events that destroy the swapchain
or its dependent resources is exactly all framebuffer destructions, then all
image-view destructions, then the swapchain destruction; and the (spec-
modelled) recreation trace performs the same reverse-dependency destruction
followed by the construction steps against the current surface extent. -/
theorem cleanup_and_recreate_reverse_dependency_order
    (nFramebuffers nImageViews : Nat) (currentExtent : Extent2D) :
    (cleanupTrace nFramebuffers nImageViews).filter isSwapchainDependentDestroy =
      (List.range nFramebuffers).map RenderEvent.destroyFramebuffer
        ++ (List.range nImageViews).map RenderEvent.destroyImageView
        ++ [RenderEvent.destroySwapchain] ∧
    (recreateSwapChainTrace nFramebuffers nImageViews currentExtent).filter
        (fun e => isSwapchainDependentDestroy e || isSwapchainConstructionStep e) =
      (List.range nFramebuffers).map RenderEvent.destroyFramebuffer
        ++ (List.range nImageViews).map RenderEvent.destroyImageView
        ++ [RenderEvent.destroySwapchain, RenderEvent.createSwapChainStep currentExtent,
            RenderEvent.createImageViewsStep, RenderEvent.createFramebuffersStep] := by
  constructor
  · rw [cleanupTrace]
    simp only [List.append_assoc, List.filter_append]
    rw [filter_map_of_all isSwapchainDependentDestroy RenderEvent.destroyFramebuffer
          (fun _ => rfl),
        filter_map_of_all isSwapchainDependentDestroy RenderEvent.destroyImageView
          (fun _ => rfl)]
    simp [List.filter, isSwapchainDependentDestroy, enabledValidationLayers]
  · rw [recreateSwapChainTrace]
    simp only [List.append_assoc, List.filter_append]
    rw [filter_map_of_all
          (fun e => isSwapchainDependentDestroy e || isSwapchainConstructionStep e)
          RenderEvent.destroyFramebuffer (fun _ => rfl),
        filter_map_of_all
          (fun e => isSwapchainDependentDestroy e || isSwapchainConstructionStep e)
          RenderEvent.destroyImageView (fun _ => rfl)]
    simp [List.filter, isSwapchainDependentDestroy, isSwapchainConstructionStep]

theorem stdClamp_eq_min_max (v lo hi : Nat) (h : lo ≤ hi) :
    stdClamp v lo hi = min (max v lo) hi := by
  unfold stdClamp
  simp only [Nat.min_def, Nat.max_def]
  split_ifs <;> omega

/-- C6: `chooseSwapExtent` returns the surface's current extent verbatim when
its width differs from the max-uint32 sentinel; otherwise it clamps the
queried framebuffer size componentwise into the image-extent bounds.  The two
concrete cases of the claim are covered by the witness. -/
theorem chooseSwapExtent_spec :
    (∀ (fb : FramebufferSize) (capabilities : SurfaceCapabilities),
      capabilities.currentExtent.width ≠ UINT32_MAX →
        chooseSwapExtent fb capabilities = capabilities.currentExtent) ∧
    (∀ (fb : FramebufferSize) (capabilities : SurfaceCapabilities),
      capabilities.currentExtent.width = UINT32_MAX →
      capabilities.minImageExtent.width ≤ capabilities.maxImageExtent.width →
      capabilities.minImageExtent.height ≤ capabilities.maxImageExtent.height →
        chooseSwapExtent fb capabilities =
          { width := min (max fb.width capabilities.minImageExtent.width)
              capabilities.maxImageExtent.width
            height := min (max fb.height capabilities.minImageExtent.height)
              capabilities.maxImageExtent.height }) := by
  constructor
  · intro fb capabilities h
    simp [chooseSwapExtent, h]
  · intro fb capabilities h hw hh
    simp [chooseSwapExtent, h, stdClamp_eq_min_max _ _ _ hw, stdClamp_eq_min_max _ _ _ hh]

/-- Witness for C6 at the claim's concrete inputs: a non-sentinel extent is
returned verbatim, and with the sentinel the claim's two framebuffer sizes
clamp into the (1,1)-(4096,4096) bounds to (1920,1080) and (4096,4096). -/
theorem chooseSwapExtent_spec_witness :
    chooseSwapExtent { width := 1920, height := 1080 } demoCapabilities
      = demoCapabilities.currentExtent ∧
    chooseSwapExtent { width := 1920, height := 1080 } sentinelCapabilities
      = { width := 1920, height := 1080 } ∧
    chooseSwapExtent { width := 10000, height := 10000 } sentinelCapabilities
      = { width := 4096, height := 4096 } :=
  ⟨chooseSwapExtent_spec.1 { width := 1920, height := 1080 } demoCapabilities (by decide),
   chooseSwapExtent_spec.2 { width := 1920, height := 1080 } sentinelCapabilities
     (by decide) (by decide) (by decide),
   chooseSwapExtent_spec.2 { width := 10000, height := 10000 } sentinelCapabilities
     (by decide) (by decide) (by decide)⟩

/-- C7: the requested image count is `minImageCount + 1`, clamped down to
`maxImageCount` when the maximum is nonzero, zero meaning unbounded.  The
claim's two concrete cases are covered by the witness. -/
theorem swapChainRequestedImageCount_spec :
    (∀ capabilities : SurfaceCapabilities, capabilities.maxImageCount = 0 →
        swapChainRequestedImageCount capabilities = capabilities.minImageCount + 1) ∧
    (∀ capabilities : SurfaceCapabilities, capabilities.maxImageCount ≠ 0 →
        swapChainRequestedImageCount capabilities =
          min (capabilities.minImageCount + 1) capabilities.maxImageCount) := by
  constructor
  · intro capabilities h
    simp [swapChainRequestedImageCount, h]
  · intro capabilities h
    simp only [swapChainRequestedImageCount, Nat.min_def, Bool.and_eq_true,
      decide_eq_true_eq, gt_iff_lt]
    split_ifs <;> omega

/-- Witness for C7 at the claim's concrete inputs: `minImageCount = 2` with
unbounded maximum yields 3, and with `maxImageCount = 2` yields 2. -/
theorem swapChainRequestedImageCount_spec_witness :
    swapChainRequestedImageCount sentinelCapabilities = sentinelCapabilities.minImageCount + 1 ∧
    swapChainRequestedImageCount cappedCapabilities =
      min (cappedCapabilities.minImageCount + 1) cappedCapabilities.maxImageCount :=
  ⟨swapChainRequestedImageCount_spec.1 sentinelCapabilities (by decide),
   swapChainRequestedImageCount_spec.2 cappedCapabilities (by decide)⟩

theorem chooseSwapSurfaceFormatLoop_eq_find (l : List SurfaceFormat) :
    chooseSwapSurfaceFormatLoop l = l.find? isPreferredSurfaceFormat := by
  induction l with
  | nil => rfl
  | cons f rest ih =>
    by_cases hf : isPreferredSurfaceFormat f <;>
      simp [chooseSwapSurfaceFormatLoop, List.find?, hf, ih]

/-- C8: on a non-empty candidate list, `chooseSwapSurfaceFormat` succeeds and
returns the first candidate equal to the 8-bit BGRA sRGB format with the sRGB
non-linear color space, falling back to the first list element when no
candidate matches; the returned format is always an element of the list. -/
theorem chooseSwapSurfaceFormat_spec (l : List SurfaceFormat) (h : l ≠ []) :
    chooseSwapSurfaceFormat l = some ((l.find? isPreferredSurfaceFormat).getD l.headI) ∧
    (l.find? isPreferredSurfaceFormat).getD l.headI ∈ l := by
  unfold chooseSwapSurfaceFormat
  rw [chooseSwapSurfaceFormatLoop_eq_find]
  cases hf : l.find? isPreferredSurfaceFormat with
  | some f =>
    exact ⟨by simp, List.mem_of_find?_eq_some hf⟩
  | none =>
    cases l with
    | nil => exact absurd rfl h
    | cons a rest => exact ⟨by simp [hf, List.headI], by simp [hf, List.headI]⟩

/-- Witness for C8: on a two-element list whose second element is the
preferred format, that element is chosen and belongs to the list. -/
theorem chooseSwapSurfaceFormat_spec_witness :
    chooseSwapSurfaceFormat [{ format := 44, colorSpace := 0 }, srgbSurfaceFormat] =
      some ((([{ format := 44, colorSpace := 0 }, srgbSurfaceFormat] :
          List SurfaceFormat).find? isPreferredSurfaceFormat).getD
        ([{ format := 44, colorSpace := 0 }, srgbSurfaceFormat] :
          List SurfaceFormat).headI) ∧
    ((([{ format := 44, colorSpace := 0 }, srgbSurfaceFormat] :
        List SurfaceFormat).find? isPreferredSurfaceFormat).getD
      ([{ format := 44, colorSpace := 0 }, srgbSurfaceFormat] :
        List SurfaceFormat).headI) ∈
      ([{ format := 44, colorSpace := 0 }, srgbSurfaceFormat] : List SurfaceFormat) :=
  chooseSwapSurfaceFormat_spec [{ format := 44, colorSpace := 0 }, srgbSurfaceFormat]
    (by decide)

theorem renderStep_after_framebuffers_id (mkView mkFramebuffer : Nat → Nat)
    (s : RendererState) (op : RenderOp) (hop : runsAfterFramebuffers op = true) :
    renderStep mkView mkFramebuffer s op = s := by
  cases op <;> first
    | rfl
    | simp [runsAfterFramebuffers] at hop

theorem runRenderOps_after_framebuffers_id (mkView mkFramebuffer : Nat → Nat)
    (s : RendererState) (ops : List RenderOp)
    (hops : ∀ op ∈ ops, runsAfterFramebuffers op = true) :
    runRenderOps mkView mkFramebuffer s ops = s := by
  induction ops generalizing s with
  | nil => rfl
  | cons op rest ih =>
    have hop : runsAfterFramebuffers op = true := hops op (by simp)
    have hrest : ∀ o ∈ rest, runsAfterFramebuffers o = true := by
      intro o ho
      exact hops o (by simp [ho])
    simp only [runRenderOps, List.foldl_cons]
    rw [renderStep_after_framebuffers_id mkView mkFramebuffer s op hop]
    exact ih s hrest

/-- C9: after the construction sequence (`createSwapChain` through
`createFramebuffers`, the order `init` runs them in), the view and framebuffer
vectors have the same length as the image vector, and the invariant is
preserved by every operation the source runs afterwards while the
framebuffers exist (`createCommandPool`, `createCommandBuffer`,
`createSyncObjects`, and any number of `drawFrame`s). -/
theorem swapchain_length_invariant_holds (mkView mkFramebuffer : Nat → Nat)
    (s0 : RendererState) (platformImages : List Nat) (ops : List RenderOp)
    (hops : ∀ op ∈ ops, runsAfterFramebuffers op = true) :
    swapchainLengthInvariant
      (runRenderOps mkView mkFramebuffer
        (runRenderOps mkView mkFramebuffer s0 (swapchainConstructionSeq platformImages))
        ops) := by
  rw [runRenderOps_after_framebuffers_id mkView mkFramebuffer _ ops hops]
  have hconstr : runRenderOps mkView mkFramebuffer s0
      (swapchainConstructionSeq platformImages) =
      { swapChainImages := platformImages
        swapChainImageViews := platformImages.map mkView
        swapChainFramebuffers := (platformImages.map mkView).map mkFramebuffer } := by
    simp [runRenderOps, swapchainConstructionSeq, renderStep]
  rw [hconstr]
  exact ⟨by simp, by simp⟩

/-- Witness for C9 with two platform images and a `drawFrame` afterwards. -/
theorem swapchain_length_invariant_holds_witness :
    swapchainLengthInvariant
      (runRenderOps (fun n => n) (fun n => n)
        (runRenderOps (fun n => n) (fun n => n)
          { swapChainImages := [], swapChainImageViews := [], swapChainFramebuffers := [] }
          (swapchainConstructionSeq [5, 7]))
        [RenderOp.drawFrame]) :=
  swapchain_length_invariant_holds (fun n => n) (fun n => n)
    { swapChainImages := [], swapChainImageViews := [], swapChainFramebuffers := [] }
    [5, 7] [RenderOp.drawFrame] (by decide)

theorem chooseSwapSurfaceFormat_isSome (l : List SurfaceFormat) (h : l ≠ []) :
    (chooseSwapSurfaceFormat l).isSome = true := by
  unfold chooseSwapSurfaceFormat
  cases hl : chooseSwapSurfaceFormatLoop l with
  | some f => rfl
  | none =>
    cases l with
    | nil => exact absurd rfl h
    | cons a rest => rfl

/-- C10: a device with strictly positive suitability score has a non-empty
formats list in its probed swapchain support, so the `availableFormats[0]`
fallback inside `chooseSwapSurfaceFormat` is in bounds: the choice succeeds. -/
theorem suitable_device_formats_nonempty (d : PhysicalDevice)
    (h : 0 < getDeviceSuitablility d) :
    (getSwapChainSupport d).formats ≠ [] ∧
    (chooseSwapSurfaceFormat (getSwapChainSupport d).formats).isSome = true := by
  have hne : (getSwapChainSupport d).formats ≠ [] := by
    intro hempty
    have h0 : getDeviceSuitablility d = 0 := by
      have hpm : (getSwapChainSupport d).presentModes = [] := rfl
      unfold getDeviceSuitablility
      by_cases hgeo : d.geometryShader
      · by_cases hqc : (!(findQueueFamilies d).isComplete || !checkDeviceExtensionSupport d)
        · simp [hgeo, hqc]
        · simp [hgeo, hqc, hempty, hpm]
      · simp [hgeo]
    omega
  exact ⟨hne, chooseSwapSurfaceFormat_isSome _ hne⟩

/-- Witness for C10 at a concrete suitable device. -/
theorem suitable_device_formats_nonempty_witness :
    (getSwapChainSupport tieDeviceA).formats ≠ [] ∧
    (chooseSwapSurfaceFormat (getSwapChainSupport tieDeviceA).formats).isSome = true :=
  suitable_device_formats_nonempty tieDeviceA (by decide)
